import Mathlib

/-
Verification of the FuXLogger dispatch core (src/FuXLogger/core/logger.py).

The Logger facade, its constructor validation, the handler-set management
operations, the synchronous dispatch loop and the thread-backed worker drain
loop are embedded as executable Lean definitions, translated directly from
the Python source.  Collaborator modules that are not part of the source
under verification (the level registry, the exception-trace extractor, the
blocking log queue) are modelled from the specification where a claim needs
them; each such definition says so in its doc comment.
-/

namespace FuXLogger

/-- Severity level: a symbolic name together with a numeric severity.
Modelled from the spec: the `models/log_level.py` module is not in the
source tree; the spec describes a Level as "an ordered severity
classification with a symbolic name".  Numeric severities are modelled as
integers. -/
structure LogLevel where
  name : String
  value : Int
deriving Repr, DecidableEq

namespace Level

/-- Modelled from the spec: the standard TRACE level of the global registry. -/
def TRACE : LogLevel := ⟨"TRACE", 5⟩

/-- Modelled from the spec: the standard DEBUG level of the global registry. -/
def DEBUG : LogLevel := ⟨"DEBUG", 10⟩

/-- Modelled from the spec: the standard INFO level of the global registry. -/
def INFO : LogLevel := ⟨"INFO", 20⟩

/-- Modelled from the spec: the standard WARN level of the global registry. -/
def WARN : LogLevel := ⟨"WARN", 30⟩

/-- Modelled from the spec: the standard ERROR level of the global registry. -/
def ERROR : LogLevel := ⟨"ERROR", 40⟩

/-- Modelled from the spec: the standard FATAL level of the global registry. -/
def FATAL : LogLevel := ⟨"FATAL", 50⟩

end Level

/-- Modelled from the spec: the process-wide level registry holding the
standard levels (`resolve(name) -> Level`). -/
def levelRegistry : List LogLevel :=
  [Level.TRACE, Level.DEBUG, Level.INFO, Level.WARN, Level.ERROR, Level.FATAL]

/-- Modelled from the spec: `getLevel` resolves a symbolic level name via the
global registry (`models/log_level.py` is not in the source tree). -/
def getLevel (s : String) : Option LogLevel :=
  levelRegistry.find? (fun L => L.name = s)

/-- An output sink.  The `handlers.py` module is not in the source tree; per
the spec a Handler is a capability with `handle(record)`, a `name` used for
lookup and a mutable severity threshold `level`.  The `id` field models the
object identity of the Python handler object; a `handle` call is recorded in
a dispatch trace as the pair (handler id, record). -/
structure Handler where
  id : Nat
  name : String
  level : LogLevel
deriving Repr, DecidableEq

/-- Call-site data captured by frame introspection in `__makeRecord`
(`inspect.currentframe().f_back.f_back.f_back`): source file name, full
path, line, function and module of the original caller.  Supplied as an
environment parameter to the embedding. -/
structure CallSite where
  file : String
  pathname : String
  line : Nat
  function : String
  module : String
deriving Repr, DecidableEq

/-- Ambient process state read by `__makeRecord` and `exception`:
timestamps, thread/process identity, stack trace, working directory, and
the current `sys.exc_info()` exception context (`none` when no exception is
active). -/
structure Env where
  timestamp : String
  utctime : String
  threadid : Nat
  processid : Nat
  processName : String
  threadName : String
  stack_info : String
  workdir : String
  excInfo : Option String
deriving Repr, DecidableEq

/-- One log record, with the exact field list built by
`Logger.__makeRecord` (src lines 144-163).  The extra `buildId` field
models the object identity of each freshly constructed record: every call
of `__makeRecord` constructs a new record object, stamped here with the
value of a build counter threaded through the embedding. -/
structure LogRecord where
  name : String
  level : LogLevel
  levelName : String
  time : String
  timestamp : String
  utctime : String
  threadid : Nat
  processid : Nat
  processName : String
  threadName : String
  stack_info : String
  file : String
  pathname : String
  workdir : String
  line : Nat
  function : String
  module : String
  message : String
  buildId : Nat
deriving Repr, DecidableEq

/-- Modelled from the spec: `utils.ExtractException` formats the current
exception context; when no exception is active the trace text is simply
empty/absent. -/
def ExtractException : Option String → String
  | some t => t
  | none => ""

/-- The Python exceptions raised by the logger core. -/
inductive LogError where
  | invalidConfiguration (msg : String)
  | invalidEnvironment (msg : String)
  | valueError (msg : String)
  | typeError (msg : String)
  | indexError
deriving Repr, DecidableEq

/-- The state of a `Logger` instance (src lines 26-45).  The thread-backed
queue and the asyncio queue are modelled as FIFO lists (the `LogQueue`
module is not in the source tree; per the spec both are FIFO queues); for a
logger in synchronous mode both lists stay empty. -/
structure Logger where
  name : String
  handlers : List Handler
  handlers_num : Nat
  enqueue : Bool
  is_async : Bool
  uuid : Nat
  only_handler : Bool
  queue : List LogRecord
  async_queue : List LogRecord
deriving Repr, DecidableEq

/-- The `handlers` constructor argument: a single handler or a list
(src line 24: `if type(handlers) != list: handlers = [handlers]`). -/
inductive HandlersArg where
  | single (h : Handler)
  | list (hs : List Handler)
deriving Repr, DecidableEq

/-- Which construction side effects took place during `Logger.__init__`:
the plain attribute assignments of lines 26-32, the thread queue allocation
and worker start of lines 36-38, and the asyncio queue allocation and task
start of lines 41-43. -/
structure InitEffects where
  fieldsAssigned : Bool
  queueAllocated : Bool
  threadStarted : Bool
  asyncQueueAllocated : Bool
  taskStarted : Bool
deriving Repr, DecidableEq

/-- Embedding of `Logger.__init__` (src lines 22-45).  `loopRunning` models whether
`asyncio.get_running_loop()` succeeds; `uuidv` models the fresh
`uuid.uuid4()` value.  Returns the constructed instance or the raised
exception, together with the effects that took place before the return or
raise.  Note the attribute assignments of lines 26-32 precede the
`enqueue and is_async` check of line 33, and `asyncio.Queue()` (line 41) is
allocated before `get_running_loop()` (line 42) can raise. -/
def Logger.init (name : String) (harg : HandlersArg) (enqueue : Bool)
    (is_async : Bool) (only_handler : Bool) (loopRunning : Bool) (uuidv : Nat) :
    Except LogError Logger × InitEffects :=
  let hs : List Handler :=
    match harg with
    | .single h => [h]
    | .list hl => hl
  let base : Logger :=
    { name := name, handlers := hs, handlers_num := hs.length,
      enqueue := enqueue, is_async := is_async, uuid := uuidv,
      only_handler := only_handler, queue := [], async_queue := [] }
  if enqueue && is_async then
    (.error (.invalidConfiguration "Cannot use enqueue and is_async at the same time"),
     ⟨true, false, false, false, false⟩)
  else if enqueue then
    (.ok base, ⟨true, true, true, false, false⟩)
  else if is_async then
    if loopRunning then
      (.ok base, ⟨true, false, false, true, true⟩)
    else
      (.error (.invalidEnvironment "Cannot use is_async outside of an asyncio event loop"),
       ⟨true, false, false, true, false⟩)
  else
    (.ok base, ⟨true, false, false, false, false⟩)

/-- The `level` argument of `log`/`__log`/`__makeRecord`: either a
`LogLevel` object or a symbolic name string (src line 140:
`if type(level) == str: level = getLevel(level)`). -/
inductive LevelArg where
  | lvl (L : LogLevel)
  | str (s : String)
deriving Repr, DecidableEq

/-- The record literally built by `Logger.__makeRecord` (src lines 144-163)
once the level has been resolved: `time` is left `""` (line 148), the
remaining metadata comes from the ambient environment and the captured call
site, and the build counter `b` stamps the fresh record's identity. -/
def mkRecord (l : Logger) (env : Env) (cs : CallSite) (L : LogLevel)
    (message : String) (b : Nat) : LogRecord :=
  { name := l.name, level := L, levelName := L.name, time := "",
    timestamp := env.timestamp, utctime := env.utctime,
    threadid := env.threadid, processid := env.processid,
    processName := env.processName, threadName := env.threadName,
    stack_info := env.stack_info, file := cs.file, pathname := cs.pathname,
    workdir := env.workdir, line := cs.line, function := cs.function,
    module := cs.module, message := message, buildId := b }

/-- Embedding of `Logger.__makeRecord` (src lines 138-163): resolves a string level via
the registry, then constructs one fresh record, advancing the build
counter.  An unknown level name makes the registry lookup fail (modelled
from the spec as a raised value error, since `getLevel` is not in the
source tree). -/
def Logger.makeRecord (l : Logger) (env : Env) (cs : CallSite)
    (message : String) (level : LevelArg) (b : Nat) :
    Except LogError (LogRecord × Nat) :=
  match level with
  | .lvl L => .ok (mkRecord l env cs L message b, b + 1)
  | .str s =>
    match getLevel s with
    | some L => .ok (mkRecord l env cs L message b, b + 1)
    | none => .error (.valueError ("Unknown level name: " ++ s))

/-- The synchronous dispatch loop of `Logger.__log` (src lines 177-178):
`for handler in self.handlers: handler.handle(self.__makeRecord(message,
level))`.  Note `__makeRecord` is called inside the loop, once per handler;
the trace lists the `handle` calls as (handler id, record) in loop order. -/
def syncLoop (l : Logger) (env : Env) (cs : CallSite) (level : LevelArg)
    (message : String) :
    List Handler → Nat → Except LogError (List (Nat × LogRecord) × Nat)
  | [], b => .ok ([], b)
  | h :: hs, b =>
    match l.makeRecord env cs message level b with
    | .error e => .error e
    | .ok (r, b') =>
      match syncLoop l env cs level message hs b' with
      | .error e => .error e
      | .ok (evs, b'') => .ok ((h.id, r) :: evs, b'')

/-- The observable outcome of one `__log` call: the post-state of the
logger (its queues), the synchronous `handle` calls made (handler id,
record), the advanced build counter, and the raised exception if any. -/
structure LogOutcome where
  logger : Logger
  events : List (Nat × LogRecord)
  builds : Nat
  error : Option LogError
deriving Repr, DecidableEq

/-- Embedding of `Logger.__log` (src lines 165-178): raise if the cached handler count
is zero; otherwise build record(s) and either push one record to the
thread queue (`enqueue`), push one record to the asyncio queue
(`is_async`), or invoke every handler synchronously with a freshly built
record each. -/
def Logger.logInternal (l : Logger) (env : Env) (cs : CallSite)
    (level : LevelArg) (message : String) (b : Nat) : LogOutcome :=
  if l.handlers_num = 0 then
    ⟨l, [], b, some (.valueError "Logger needs at lease one handler")⟩
  else if l.enqueue then
    match l.makeRecord env cs message level b with
    | .ok (r, b') => ⟨{ l with queue := l.queue ++ [r] }, [], b', none⟩
    | .error e => ⟨l, [], b, some e⟩
  else if l.is_async then
    match l.makeRecord env cs message level b with
    | .ok (r, b') => ⟨{ l with async_queue := l.async_queue ++ [r] }, [], b', none⟩
    | .error e => ⟨l, [], b, some e⟩
  else
    match syncLoop l env cs level message l.handlers b with
    | .ok (evs, b') => ⟨l, evs, b', none⟩
    | .error e => ⟨l, [], b, some e⟩

/-- The public logging entry points (src lines 180-232): `log` plus the
fixed-level wrappers `trace`/`debug`/`info`/`warning`/`error`/`fatal` and
`exception`. -/
inductive ApiCall where
  | log (level : LevelArg) (message : String)
  | trace (message : String)
  | debug (message : String)
  | info (message : String)
  | warning (message : String)
  | error (message : String)
  | fatal (message : String)
  | exception (message : String) (is_fatal : Bool)
deriving Repr, DecidableEq

/-- Dispatch of one public logging call to `__log` (src lines 180-232).
`exception` (lines 180-190) extracts the current exception trace with
`ExtractException(sys.exc_info())`, concatenates it after the message as
`f"\x7bmessage\x7d\n\x7berr_msg\x7d"`, and logs at FATAL when `is_fatal`
else ERROR; the other wrappers pass their fixed level through. -/
def Logger.invoke (l : Logger) (env : Env) (cs : CallSite) :
    ApiCall → Nat → LogOutcome
  | .log level m, b => l.logInternal env cs level m b
  | .trace m, b => l.logInternal env cs (.lvl Level.TRACE) m b
  | .debug m, b => l.logInternal env cs (.lvl Level.DEBUG) m b
  | .info m, b => l.logInternal env cs (.lvl Level.INFO) m b
  | .warning m, b => l.logInternal env cs (.lvl Level.WARN) m b
  | .error m, b => l.logInternal env cs (.lvl Level.ERROR) m b
  | .fatal m, b => l.logInternal env cs (.lvl Level.FATAL) m b
  | .exception m f, b =>
    l.logInternal env cs (.lvl (if f then Level.FATAL else Level.ERROR))
      (m ++ "\n" ++ ExtractException env.excInfo) b

/-- The `new_threshold` argument of `setLevelThreshold` (src line 78): a
`LogLevel` object or a raw number (`int | float`, modelled as an integer
severity). -/
inductive Threshold where
  | lvl (L : LogLevel)
  | num (n : Int)
deriving Repr, DecidableEq

/-- The wrapping step of `setLevelThreshold` (src lines 79-80): a raw
number is wrapped into `LogLevel("CUSTOM", number)`; a `LogLevel` passes
through unchanged. -/
def wrapThreshold : Threshold → LogLevel
  | .lvl L => L
  | .num n => ⟨"CUSTOM", n⟩

/-- The `handler` selector argument of `setLevelThreshold` (src line 78):
an index, a name, or a value of any other type (`other` carries the type
name used in the error message). -/
inductive SelArg where
  | idx (i : Int)
  | name (s : String)
  | other (t : String)
deriving Repr, DecidableEq

/-- Python list indexing discipline shared by `self.handlers[handler]`
(src line 82) and `del self.handlers[handler]` (src line 102): a negative
index counts from the end; an out-of-range index raises IndexError
(`none`). -/
def pyIndex (n : Nat) (i : Int) : Option Nat :=
  let j : Int := if i < 0 then i + n else i
  if 0 ≤ j ∧ j < (n : Int) then some j.toNat else none

/-- In-place update of the handler at a position, modelling the assignment
`self.handlers[handler].level = new_threshold` (src line 82). -/
def setLevelAt : List Handler → Nat → LogLevel → List Handler
  | [], _, _ => []
  | h :: hs, 0, L => { h with level := L } :: hs
  | h :: hs, j + 1, L => h :: setLevelAt hs j L

/-- The name-lookup loop of `setLevelThreshold` (src lines 84-87): walk the
handler list, set the level of the first handler whose name matches, and
stop; `none` when the loop's `else` clause would raise. -/
def setLevelByName : List Handler → String → LogLevel → Option (List Handler)
  | [], _, _ => none
  | h :: hs, s, L =>
    if h.name = s then some ({ h with level := L } :: hs)
    else (setLevelByName hs s L).map (fun hs' => h :: hs')

/-- Embedding of `Logger.setLevelThreshold` (src lines 78-92).  The result
pairs the post-state with the raised exception, if any; on a raise the
trailing `self.handlers_num = len(self.handlers)` of line 92 is skipped. -/
def Logger.setLevelThreshold (l : Logger) (handler : SelArg)
    (new_threshold : Threshold) : Logger × Option LogError :=
  let nt := wrapThreshold new_threshold
  match handler with
  | .idx i =>
    match pyIndex l.handlers.length i with
    | some j =>
      let hs := setLevelAt l.handlers j nt
      ({ l with handlers := hs, handlers_num := hs.length }, none)
    | none => (l, some .indexError)
  | .name s =>
    match setLevelByName l.handlers s nt with
    | some hs => ({ l with handlers := hs, handlers_num := hs.length }, none)
    | none => (l, some (.valueError ("Handler \"" ++ s ++ "\" does not exist")))
  | .other t =>
    (l, some (.typeError ("Arg \"handler\" must be a LogLevel|int|float object, not " ++ t)))

/-- Embedding of `Logger.addHandler` (src lines 94-96): append, then
refresh the cached count. -/
def Logger.addHandler (l : Logger) (h : Handler) : Logger × Option LogError :=
  let hs := l.handlers ++ [h]
  ({ l with handlers := hs, handlers_num := hs.length }, none)

/-- The `handler` selector argument of `removeHandler` (src line 98): a
handler instance, an index, a name, or a value of any other type. -/
inductive RemoveArg where
  | handler (h : Handler)
  | idx (i : Int)
  | name (s : String)
  | other (t : String)
deriving Repr, DecidableEq

/-- The name-lookup loop of `removeHandler` (src lines 104-107): walk the
handler list and remove the first handler whose name matches; `none` when
the loop's `else` clause would raise. -/
def removeFirstNamed : List Handler → String → Option (List Handler)
  | [], _ => none
  | h :: hs, s =>
    if h.name = s then some hs
    else (removeFirstNamed hs s).map (fun hs' => h :: hs')

/-- Removal of the first occurrence of a given handler, modelling Python's
`self.handlers.remove(handler)` (src line 100); `none` when the element is
absent and `list.remove` would raise ValueError. -/
def removeFirstEq : List Handler → Handler → Option (List Handler)
  | [], _ => none
  | h :: hs, x =>
    if h = x then some hs
    else (removeFirstEq hs x).map (fun hs' => h :: hs')

/-- Embedding of `Logger.removeHandler` (src lines 98-112).  The result
pairs the post-state with the raised exception, if any; on a raise the
trailing `self.handlers_num = len(self.handlers)` of line 112 is
skipped. -/
def Logger.removeHandler (l : Logger) (handler : RemoveArg) :
    Logger × Option LogError :=
  match handler with
  | .handler h =>
    match removeFirstEq l.handlers h with
    | some hs => ({ l with handlers := hs, handlers_num := hs.length }, none)
    | none => (l, some (.valueError "list.remove(x): x not in list"))
  | .idx i =>
    match pyIndex l.handlers.length i with
    | some j =>
      let hs := l.handlers.eraseIdx j
      ({ l with handlers := hs, handlers_num := hs.length }, none)
    | none => (l, some .indexError)
  | .name s =>
    match removeFirstNamed l.handlers s with
    | some hs => ({ l with handlers := hs, handlers_num := hs.length }, none)
    | none => (l, some (.valueError ("Handler \"" ++ s ++ "\" does not exist")))
  | .other t =>
    (l, some (.typeError ("Arg \"handler\" must be a Handler|int|str object, not " ++ t)))

/-- One of the three HandlerSet-mutating operations of the facade, used to
state the cached-count invariant uniformly. -/
inductive MutOp where
  | add (h : Handler)
  | remove (a : RemoveArg)
  | setThr (s : SelArg) (t : Threshold)
deriving Repr, DecidableEq

/-- Application of one HandlerSet-mutating operation. -/
def Logger.applyOp (l : Logger) : MutOp → Logger × Option LogError
  | .add h => l.addHandler h
  | .remove a => l.removeHandler a
  | .setThr s t => l.setLevelThreshold s t

/-- The observable outcome of running the worker drain loop for a bounded
number of iterations: the post-state of the logger (its queue), the
`handle` calls made on the worker thread, and whether the loop has hit its
`break` (src line 135) within that bound. -/
structure WorkerOut where
  logger : Logger
  events : List (Nat × LogRecord)
  exited : Bool
deriving Repr, DecidableEq

/-- Embedding of the worker drain loop `Logger.__enqueueHandler` (src lines
127-136), run for `fuel` iterations.  Each iteration pops the front record
and fans it out to every handler; on an empty queue the pop times out with
`LogQueueEmptyException`, and the loop `break`s only when the process's
main thread is no longer alive (`mainAlive = false`), else `continue`s. -/
def workerRun : Nat → Logger → Bool → WorkerOut
  | 0, l, _ => ⟨l, [], false⟩
  | fuel + 1, l, mainAlive =>
    match l.queue with
    | r :: rest =>
      let out := workerRun fuel { l with queue := rest } mainAlive
      ⟨out.logger, (l.handlers.map (fun h => (h.id, r))) ++ out.events, out.exited⟩
    | [] =>
      if mainAlive then workerRun fuel l mainAlive
      else ⟨l, [], true⟩

/-- Embedding of `Logger.close` (src lines 63-72) in thread-backed mode:
`self.log_thread.join()` returns exactly when the worker loop has exited,
so within any observation bound `fuel`, `close` has returned iff the
worker run within that bound has hit its `break`.  In the other modes
`close` returns immediately. -/
def Logger.closeReturns (l : Logger) (mainAlive : Bool) (fuel : Nat) : Bool :=
  if l.enqueue then (workerRun fuel l mainAlive).exited else true

/-- Concrete console handler used as a test fixture. -/
def hConsole : Handler := ⟨1, "console", Level.INFO⟩

/-- Concrete file handler with a high threshold, used as a test fixture. -/
def hFile : Handler := ⟨2, "file", Level.FATAL⟩

/-- Concrete call site used as a test fixture. -/
def sampleCS : CallSite := ⟨"main.py", "/app/main.py", 10, "main", "__main__"⟩

/-- Concrete ambient environment with no active exception context. -/
def sampleEnv : Env :=
  ⟨"2024-01-01 00:00:00", "2024-01-01 00:00:00", 1, 100,
   "MainProcess", "MainThread", "stack", "/app", none⟩

/-- A logger in synchronous mode with two handlers. -/
def syncLogger : Logger := ⟨"app", [hConsole, hFile], 2, false, false, 7, false, [], []⟩

/-- A logger in synchronous mode with an empty handler set. -/
def emptyLogger : Logger := ⟨"app", [], 0, false, false, 7, false, [], []⟩

/-- A logger in thread-backed queue mode with one handler. -/
def enqueueLogger : Logger := ⟨"app", [hConsole], 1, true, false, 7, false, [], []⟩

/-- A logger in event-loop-backed queue mode with one handler. -/
def asyncLogger : Logger := ⟨"app", [hConsole], 1, false, true, 7, false, [], []⟩

/-- Explicit form of the trace produced by the synchronous dispatch loop:
each handler, in list order, receives a record freshly built for it with
the next build-counter value. -/
def syncEventsSpec (l : Logger) (env : Env) (cs : CallSite) (L : LogLevel)
    (message : String) : List Handler → Nat → List (Nat × LogRecord)
  | [], _ => []
  | h :: hs, b =>
    (h.id, mkRecord l env cs L message b) :: syncEventsSpec l env cs L message hs (b + 1)

lemma syncLoop_lvl (l : Logger) (env : Env) (cs : CallSite) (L : LogLevel)
    (m : String) : ∀ (hs : List Handler) (b : Nat),
    syncLoop l env cs (.lvl L) m hs b =
      .ok (syncEventsSpec l env cs L m hs b, b + hs.length) := by
  intro hs
  induction hs with
  | nil => intro b; simp [syncLoop, syncEventsSpec]
  | cons h hs ih =>
    intro b
    simp [syncLoop, Logger.makeRecord, syncEventsSpec, ih (b + 1)]
    omega

lemma syncEventsSpec_map_fst (l : Logger) (env : Env) (cs : CallSite)
    (L : LogLevel) (m : String) : ∀ (hs : List Handler) (b : Nat),
    (syncEventsSpec l env cs L m hs b).map Prod.fst = hs.map Handler.id := by
  intro hs
  induction hs with
  | nil => intro b; rfl
  | cons h hs ih => intro b; simp [syncEventsSpec, ih (b + 1)]

lemma syncEventsSpec_length (l : Logger) (env : Env) (cs : CallSite)
    (L : LogLevel) (m : String) : ∀ (hs : List Handler) (b : Nat),
    (syncEventsSpec l env cs L m hs b).length = hs.length := by
  intro hs
  induction hs with
  | nil => intro b; rfl
  | cons h hs ih => intro b; simp [syncEventsSpec, ih (b + 1)]

lemma syncEventsSpec_map_buildId (l : Logger) (env : Env) (cs : CallSite)
    (L : LogLevel) (m : String) : ∀ (hs : List Handler) (b : Nat),
    (syncEventsSpec l env cs L m hs b).map (fun e => e.2.buildId) =
      List.range' b hs.length := by
  intro hs
  induction hs with
  | nil => intro b; rfl
  | cons h hs ih => intro b; simp [syncEventsSpec, mkRecord, ih (b + 1), List.range']

lemma syncEventsSpec_mem (l : Logger) (env : Env) (cs : CallSite)
    (L : LogLevel) (m : String) : ∀ (hs : List Handler) (b : Nat),
    ∀ e ∈ syncEventsSpec l env cs L m hs b,
      e.2.level = L ∧ e.2.message = m := by
  intro hs
  induction hs with
  | nil => intro b e he; simp [syncEventsSpec] at he
  | cons h hs ih =>
    intro b e he
    simp [syncEventsSpec] at he
    rcases he with rfl | he
    · exact ⟨rfl, rfl⟩
    · exact ih (b + 1) e he

lemma workerRun_exited_false (fuel : Nat) :
    ∀ (l : Logger), (workerRun fuel l true).exited = false := by
  induction fuel with
  | zero => intro l; rfl
  | succ n ih =>
    intro l
    cases hq : l.queue with
    | nil => simp [workerRun, hq, ih l]
    | cons r rest => simp [workerRun, hq, ih]

/-- C1: the claim says that in thread-backed queue mode `close()` blocks
until the worker thread has drained the queue and exited, and then
returns.  In the code the worker's drain loop (`__enqueueHandler`, src
lines 127-136) breaks only when the process's main thread is no longer
alive, so while the main thread is alive — in particular while it is
blocked inside `close()`'s `self.log_thread.join()` — the loop never
exits, whatever the queue contents: `close()` never returns.  This theorem
exhibits the divergence: for every iteration bound and every logger state,
a `close()` observed while the main thread is alive has not returned. -/
theorem close_never_returns_in_enqueue_mode (fuel : Nat) (l : Logger)
    (h : l.enqueue = true) : l.closeReturns true fuel = false := by
  simp [Logger.closeReturns, h, workerRun_exited_false]

theorem close_never_returns_witness :
    enqueueLogger.enqueue = true ∧ enqueueLogger.closeReturns true 100 = false :=
  ⟨rfl, close_never_returns_in_enqueue_mode 100 enqueueLogger rfl⟩

/-- C2 counterexample: constructing with `enqueue = true` and
`is_async = true` does raise the configuration error, but the plain
attribute assignments of src lines 26-32 have already taken effect when
the error is raised, refuting the claim's "no field assignment ... takes
effect". -/
theorem init_conflicting_modes_counterexample :
    (Logger.init "app" (.list [hConsole]) true true false false 7).1 =
      .error (.invalidConfiguration "Cannot use enqueue and is_async at the same time") ∧
    (Logger.init "app" (.list [hConsole]) true true false false 7).2.fieldsAssigned = true :=
  ⟨rfl, rfl⟩

/-- C2 (amended): every construction with both `enqueue = true` and
`is_async = true` fails with the configuration error, and neither queue
allocation nor worker/task start takes effect — though the plain attribute
assignments of src lines 26-32 do occur before the error is raised. -/
theorem init_conflicting_modes_rejected (name : String) (harg : HandlersArg)
    (oh lr : Bool) (u : Nat) :
    Logger.init name harg true true oh lr u =
      (.error (.invalidConfiguration "Cannot use enqueue and is_async at the same time"),
       ⟨true, false, false, false, false⟩) := rfl

/-- C3: every public log call (`log`, `trace`, `debug`, `info`, `warning`,
`error`, `fatal`, `exception`) made while the handler set is empty raises
the ValueError of src line 170, and no record is constructed or
dispatched: the logger state, trace and build counter are unchanged. -/
theorem log_with_no_handlers_raises (l : Logger) (env : Env) (cs : CallSite)
    (c : ApiCall) (b : Nat) (h : l.handlers_num = 0) :
    l.invoke env cs c b =
      ⟨l, [], b, some (.valueError "Logger needs at lease one handler")⟩ := by
  cases c <;> simp [Logger.invoke, Logger.logInternal, h]

theorem log_with_no_handlers_witness :
    emptyLogger.handlers_num = 0 ∧
    emptyLogger.invoke sampleEnv sampleCS (.info "x") 0 =
      ⟨emptyLogger, [], 0, some (.valueError "Logger needs at lease one handler")⟩ :=
  ⟨rfl, log_with_no_handlers_raises emptyLogger sampleEnv sampleCS (.info "x") 0 rfl⟩

/-- C10: every construction with `is_async = true` (and `enqueue = false`)
while no event loop is running fails with the environment error of src
line 45, and never silently downgrades to synchronous mode: the result is
the raised error, with no worker thread or background task started (the
asyncio queue allocation of src line 41 does precede the failing
`get_running_loop()` call). -/
theorem init_async_without_loop_fails (name : String) (harg : HandlersArg)
    (oh : Bool) (u : Nat) :
    Logger.init name harg false true oh false u =
      (.error (.invalidEnvironment "Cannot use is_async outside of an asyncio event loop"),
       ⟨true, false, false, true, false⟩) := rfl

/-- C4: the record builder is invoked once per handler in synchronous
mode and once per call in both queued modes.  In synchronous mode a log
call with k handlers advances the build counter by k and the records
handed to the handlers carry the k consecutive fresh build identities, so
they are pairwise distinct; in thread-queue mode and in loop-queue mode
the counter advances by exactly 1 and the single record is shared via the
queue, with no synchronous `handle` call. -/
theorem record_builder_calls_per_mode :
    (∀ (l : Logger) (env : Env) (cs : CallSite) (L : LogLevel) (m : String) (b : Nat),
      l.enqueue = false → l.is_async = false → l.handlers_num ≠ 0 →
      (l.logInternal env cs (.lvl L) m b).builds = b + l.handlers.length ∧
      ((l.logInternal env cs (.lvl L) m b).events.map (fun e => e.2.buildId)) =
        List.range' b l.handlers.length ∧
      ((l.logInternal env cs (.lvl L) m b).events.map (fun e => e.2)).Nodup) ∧
    (∀ (l : Logger) (env : Env) (cs : CallSite) (L : LogLevel) (m : String) (b : Nat),
      l.enqueue = true → l.handlers_num ≠ 0 →
      (l.logInternal env cs (.lvl L) m b).builds = b + 1 ∧
      (l.logInternal env cs (.lvl L) m b).logger.queue =
        l.queue ++ [mkRecord l env cs L m b] ∧
      (l.logInternal env cs (.lvl L) m b).events = []) ∧
    (∀ (l : Logger) (env : Env) (cs : CallSite) (L : LogLevel) (m : String) (b : Nat),
      l.enqueue = false → l.is_async = true → l.handlers_num ≠ 0 →
      (l.logInternal env cs (.lvl L) m b).builds = b + 1 ∧
      (l.logInternal env cs (.lvl L) m b).logger.async_queue =
        l.async_queue ++ [mkRecord l env cs L m b] ∧
      (l.logInternal env cs (.lvl L) m b).events = []) := by
  refine ⟨?_, ?_, ?_⟩
  · intro l env cs L m b he ha hn
    simp [Logger.logInternal, he, ha, hn, syncLoop_lvl]
    refine ⟨syncEventsSpec_map_buildId l env cs L m l.handlers b, ?_⟩
    have hnd : ((syncEventsSpec l env cs L m l.handlers b).map (fun e => e.2)).Nodup := by
      apply List.Nodup.of_map (f := fun r : LogRecord => r.buildId)
      rw [List.map_map]
      have h1 : ((fun r : LogRecord => r.buildId) ∘ fun e : Nat × LogRecord => e.2) =
          fun e : Nat × LogRecord => e.2.buildId := rfl
      rw [h1, syncEventsSpec_map_buildId l env cs L m l.handlers b]
      exact List.nodup_range' b l.handlers.length
    exact hnd
  · intro l env cs L m b he hn
    simp [Logger.logInternal, he, hn, Logger.makeRecord]
  · intro l env cs L m b he ha hn
    simp [Logger.logInternal, he, ha, hn, Logger.makeRecord]

theorem record_builder_calls_witness :
    ((syncLogger.logInternal sampleEnv sampleCS (.lvl Level.INFO) "x" 0).builds =
        0 + syncLogger.handlers.length ∧
      ((syncLogger.logInternal sampleEnv sampleCS (.lvl Level.INFO) "x" 0).events.map
        (fun e => e.2.buildId)) = List.range' 0 syncLogger.handlers.length ∧
      ((syncLogger.logInternal sampleEnv sampleCS (.lvl Level.INFO) "x" 0).events.map
        (fun e => e.2)).Nodup) ∧
    ((enqueueLogger.logInternal sampleEnv sampleCS (.lvl Level.INFO) "x" 0).builds = 0 + 1 ∧
      (enqueueLogger.logInternal sampleEnv sampleCS (.lvl Level.INFO) "x" 0).logger.queue =
        enqueueLogger.queue ++ [mkRecord enqueueLogger sampleEnv sampleCS Level.INFO "x" 0] ∧
      (enqueueLogger.logInternal sampleEnv sampleCS (.lvl Level.INFO) "x" 0).events = []) ∧
    ((asyncLogger.logInternal sampleEnv sampleCS (.lvl Level.INFO) "x" 0).builds = 0 + 1 ∧
      (asyncLogger.logInternal sampleEnv sampleCS (.lvl Level.INFO) "x" 0).logger.async_queue =
        asyncLogger.async_queue ++ [mkRecord asyncLogger sampleEnv sampleCS Level.INFO "x" 0] ∧
      (asyncLogger.logInternal sampleEnv sampleCS (.lvl Level.INFO) "x" 0).events = []) :=
  ⟨record_builder_calls_per_mode.1 syncLogger sampleEnv sampleCS Level.INFO "x" 0
      rfl rfl (by decide),
   record_builder_calls_per_mode.2.1 enqueueLogger sampleEnv sampleCS Level.INFO "x" 0
      rfl (by decide),
   record_builder_calls_per_mode.2.2 asyncLogger sampleEnv sampleCS Level.INFO "x" 0
      rfl rfl (by decide)⟩

/-- C5: in synchronous mode a log call with a non-empty handler set raises
nothing and produces exactly one `handle` call per handler, in handler
list (registration) order — the trace of handler ids equals the handler
list's ids — and this holds for every assignment of severity thresholds to
the handlers and every record level, i.e. the dispatcher performs no level
filtering. -/
theorem sync_dispatch_in_order_unfiltered (l : Logger) (env : Env)
    (cs : CallSite) (L : LogLevel) (m : String) (b : Nat)
    (he : l.enqueue = false) (ha : l.is_async = false)
    (hn : l.handlers_num ≠ 0) :
    (l.logInternal env cs (.lvl L) m b).error = none ∧
    ((l.logInternal env cs (.lvl L) m b).events.map Prod.fst) =
      l.handlers.map Handler.id := by
  simp [Logger.logInternal, he, ha, hn, syncLoop_lvl, syncEventsSpec_map_fst]

theorem sync_dispatch_witness :
    (syncLogger.handlers_num ≠ 0) ∧
    ((syncLogger.logInternal sampleEnv sampleCS (.lvl Level.TRACE) "x" 0).error = none ∧
      ((syncLogger.logInternal sampleEnv sampleCS (.lvl Level.TRACE) "x" 0).events.map
        Prod.fst) = syncLogger.handlers.map Handler.id) :=
  ⟨by decide,
   sync_dispatch_in_order_unfiltered syncLogger sampleEnv sampleCS Level.TRACE "x" 0
     rfl rfl (by decide)⟩

/-- C8: `exception(message, is_fatal)` concatenates the extracted
exception trace after the message (separated by a newline, src line 186)
and logs the result at FATAL when `is_fatal` else ERROR; in synchronous
mode with a consistent, non-empty handler set the call raises nothing and
emits to every handler a record with exactly that level and concatenated
message — also when no exception context is active (`excInfo = none`),
where the extracted trace is simply the empty string. -/
theorem exception_concatenates_trace (l : Logger) (env : Env) (cs : CallSite)
    (m : String) (f : Bool) (b : Nat)
    (he : l.enqueue = false) (ha : l.is_async = false)
    (hinv : l.handlers_num = l.handlers.length) (hne : l.handlers ≠ []) :
    (l.invoke env cs (.exception m f) b).error = none ∧
    (l.invoke env cs (.exception m f) b).events.length = l.handlers.length ∧
    (∀ e ∈ (l.invoke env cs (.exception m f) b).events,
      e.2.level = (if f then Level.FATAL else Level.ERROR) ∧
      e.2.message = m ++ "\n" ++ ExtractException env.excInfo) := by
  have hn : l.handlers_num ≠ 0 := by
    rw [hinv]
    exact Nat.pos_iff_ne_zero.mp (List.length_pos.mpr hne)
  simp only [Logger.invoke]
  simp [Logger.logInternal, he, ha, hn, syncLoop_lvl, syncEventsSpec_length]
  exact fun a r hmem => syncEventsSpec_mem l env cs _ _ l.handlers b (a, r) hmem

theorem exception_concatenates_witness :
    (syncLogger.handlers_num = syncLogger.handlers.length ∧ syncLogger.handlers ≠ []) ∧
    ((syncLogger.invoke sampleEnv sampleCS (.exception "boom" false) 0).error = none ∧
      (syncLogger.invoke sampleEnv sampleCS (.exception "boom" false) 0).events.length =
        syncLogger.handlers.length ∧
      (∀ e ∈ (syncLogger.invoke sampleEnv sampleCS (.exception "boom" false) 0).events,
        e.2.level = (if false then Level.FATAL else Level.ERROR) ∧
        e.2.message = "boom" ++ "\n" ++ ExtractException sampleEnv.excInfo)) :=
  ⟨⟨rfl, by decide⟩,
   exception_concatenates_trace syncLogger sampleEnv sampleCS "boom" false 0
     rfl rfl rfl (by decide)⟩

lemma removeFirstNamed_eq_none {hs : List Handler} {s : String}
    (h : ∀ x ∈ hs, x.name ≠ s) : removeFirstNamed hs s = none := by
  induction hs with
  | nil => rfl
  | cons a as ih =>
    simp only [removeFirstNamed]
    rw [if_neg (h a (by simp))]
    rw [ih (fun x hx => h x (by simp [hx]))]
    rfl

/-- C6: `removeHandler` with a name matching no handler raises the
not-found ValueError of src line 109 and leaves the logger — handler list,
order and cached count — exactly unchanged; `removeHandler` with a
selector that is neither a Handler, an int nor a str raises the TypeError
of src line 111 and likewise leaves the logger unchanged. -/
theorem removeHandler_error_paths_leave_set_unchanged (l : Logger)
    (s t : String) (h : ∀ x ∈ l.handlers, x.name ≠ s) :
    l.removeHandler (.name s) =
      (l, some (.valueError ("Handler \"" ++ s ++ "\" does not exist"))) ∧
    l.removeHandler (.other t) =
      (l, some (.typeError ("Arg \"handler\" must be a Handler|int|str object, not " ++ t))) := by
  constructor
  · simp [Logger.removeHandler, removeFirstNamed_eq_none h]
  · rfl

theorem removeHandler_error_paths_witness :
    (∀ x ∈ syncLogger.handlers, x.name ≠ "missing") ∧
    (syncLogger.removeHandler (.name "missing") =
      (syncLogger, some (.valueError ("Handler \"" ++ "missing" ++ "\" does not exist"))) ∧
     syncLogger.removeHandler (.other "NoneType") =
      (syncLogger,
       some (.typeError ("Arg \"handler\" must be a Handler|int|str object, not " ++ "NoneType")))) :=
  ⟨by decide,
   removeHandler_error_paths_leave_set_unchanged syncLogger "missing" "NoneType" (by decide)⟩

/-- C7: the cached handler count equals the length of the handler list
after every successful construction, and every completed `addHandler`,
`removeHandler` and `setLevelThreshold` call — whether it returns normally
or raises — preserves that equality. -/
theorem handlers_num_cache_invariant :
    (∀ (name : String) (harg : HandlersArg) (e a oh lr : Bool) (u : Nat) (l : Logger),
      (Logger.init name harg e a oh lr u).1 = .ok l →
      l.handlers_num = l.handlers.length) ∧
    (∀ (l : Logger) (op : MutOp), l.handlers_num = l.handlers.length →
      (l.applyOp op).1.handlers_num = (l.applyOp op).1.handlers.length) := by
  constructor
  · intro name harg e a oh lr u l h
    cases e <;> cases a <;> cases lr <;> simp [Logger.init] at h <;>
      (first
        | exact h.elim
        | (rw [← h]))
  · intro l op h
    cases op with
    | add hh => simp [Logger.applyOp, Logger.addHandler]
    | remove a =>
      cases a <;> simp only [Logger.applyOp, Logger.removeHandler] <;>
        (repeat' split) <;> simp [h]
    | setThr s t =>
      cases s <;> simp only [Logger.applyOp, Logger.setLevelThreshold] <;>
        (repeat' split) <;> simp [h]

theorem handlers_num_cache_witness :
    ((Logger.init "app" (.single hConsole) false false false false 7).1 =
        .ok ⟨"app", [hConsole], 1, false, false, 7, false, [], []⟩ ∧
      (⟨"app", [hConsole], 1, false, false, 7, false, [], []⟩ : Logger).handlers_num =
        (⟨"app", [hConsole], 1, false, false, 7, false, [], []⟩ : Logger).handlers.length) ∧
    (syncLogger.handlers_num = syncLogger.handlers.length ∧
      (syncLogger.applyOp (.remove (.name "missing"))).1.handlers_num =
        (syncLogger.applyOp (.remove (.name "missing"))).1.handlers.length) :=
  ⟨⟨rfl,
    handlers_num_cache_invariant.1 "app" (.single hConsole) false false false false 7
      ⟨"app", [hConsole], 1, false, false, 7, false, [], []⟩ rfl⟩,
   ⟨rfl,
    handlers_num_cache_invariant.2 syncLogger (.remove (.name "missing")) rfl⟩⟩

lemma pyIndex_natCast (n j : Nat) (h : j < n) : pyIndex n (j : Int) = some j := by
  have h0 : ¬((j : Int) < 0) := by omega
  simp [pyIndex, h0, h]

lemma setLevelAt_get (L : LogLevel) : ∀ (hs : List Handler) (j : Nat), j < hs.length →
    ((setLevelAt hs j L)[j]?).map Handler.level = some L := by
  intro hs
  induction hs with
  | nil => intro j hj; simp at hj
  | cons a as ih =>
    intro j hj
    cases j with
    | zero => simp [setLevelAt]
    | succ k =>
      simp only [setLevelAt, List.getElem?_cons_succ]
      exact ih k (by simpa using hj)

/-- C9: `setLevelThreshold` with a raw numeric threshold wraps the number
into the level `LogLevel("CUSTOM", number)` (src lines 79-80) — symbolic
name "CUSTOM", numeric severity equal to the given number — and assigns
exactly that wrapped level as the selected handler's threshold: for a
valid index selector the call raises nothing and the handler at that index
ends up with threshold `⟨"CUSTOM", n⟩`. -/
theorem setLevelThreshold_wraps_number_as_custom (l : Logger) (j : Nat)
    (n : Int) (hj : j < l.handlers.length) :
    wrapThreshold (.num n) = ⟨"CUSTOM", n⟩ ∧
    (l.setLevelThreshold (.idx (j : Int)) (.num n)).2 = none ∧
    (((l.setLevelThreshold (.idx (j : Int)) (.num n)).1.handlers[j]?).map Handler.level) =
      some ⟨"CUSTOM", n⟩ := by
  refine ⟨rfl, ?_, ?_⟩ <;>
    simp [Logger.setLevelThreshold, pyIndex_natCast _ _ hj, wrapThreshold,
      setLevelAt_get _ _ _ hj]

theorem setLevelThreshold_wraps_witness :
    (1 < syncLogger.handlers.length) ∧
    (wrapThreshold (.num 25) = ⟨"CUSTOM", 25⟩ ∧
      (syncLogger.setLevelThreshold (.idx (1 : Int)) (.num 25)).2 = none ∧
      (((syncLogger.setLevelThreshold (.idx (1 : Int)) (.num 25)).1.handlers[1]?).map
        Handler.level) = some ⟨"CUSTOM", 25⟩) :=
  ⟨by decide, setLevelThreshold_wraps_number_as_custom syncLogger 1 25 (by decide)⟩

end FuXLogger
